import Mathlib

/-!
Shallow embedding of `src/festis/telestaff.py` (class `Telestaff`).

The source is a scraping client: it walks BeautifulSoup document trees and
extracts structured records.  We model a parsed HTML document as a tree of
element nodes (`Node`, with child forests `Forest`), and translate each
extraction method of the source into a Lean function over that tree.
BeautifulSoup itself (the HTML text parser) is external library code; the
embedding therefore takes the already-parsed tree as input, and the
BeautifulSoup operations used by the source (`find`, `findAll`,
`find_next_siblings`, `.text`, attribute access) are modelled directly as
tree traversals with the same matching semantics.

Python runtime errors that the source can raise (AttributeError from
dereferencing a `find` miss, KeyError from a missing dict key, ValueError
from `strptime`, UnboundLocalError from reading an unassigned local) are
modelled with `Except PyError`.
-/

namespace Festis

/-- Python `str.strip` whitespace set: space, tab, newline, carriage return,
vertical tab, form feed. -/
def pyIsSpace (c : Char) : Bool :=
  c = ' ' || c = '\t' || c = '\n' || c = '\r' || c = '\x0b' || c = '\x0c'

/-- Strip `pyIsSpace` characters from both ends of a character list. -/
def pyStripList (l : List Char) : List Char :=
  ((l.dropWhile pyIsSpace).reverse.dropWhile pyIsSpace).reverse

/-- Python `s.strip()`. -/
def pyStrip (s : String) : String := ⟨pyStripList s.data⟩

/-- `Telestaff.clean_string` (telestaff.py:269):
strip, then delete every newline, carriage return and tab. -/
def clean_string (s : String) : String :=
  ⟨(pyStripList s.data).filter (fun c => c ≠ '\n' && c ≠ '\r' && c ≠ '\t')⟩

mutual
/-- One HTML element: tag name, the (possibly empty) token list of its
`class` attribute, its other attributes, its direct text content, and its
child elements. -/
inductive Node where
  | mk (tag : String) (classes : List String) (attrs : List (String × String))
       (text : String) (children : Forest)

/-- A sibling sequence of elements. -/
inductive Forest where
  | nil
  | cons (n : Node) (rest : Forest)
end

def Node.tag : Node → String
  | .mk t _ _ _ _ => t

def Node.classes : Node → List String
  | .mk _ c _ _ _ => c

def Node.attrs : Node → List (String × String)
  | .mk _ _ a _ _ => a

def Node.ownText : Node → String
  | .mk _ _ _ s _ => s

def Node.children : Node → Forest
  | .mk _ _ _ _ cs => cs

/-- Attribute lookup, `tag.get(key)` / `tag[key]` presence. -/
def Node.getAttr? (n : Node) (k : String) : Option String :=
  (n.attrs.find? (fun p => p.1 == k)).map (fun p => p.2)

/-- A BeautifulSoup search filter as used by the source:
`find(tag, attrs={"class": classes, key: value, ...})`.
An empty `classes` list means no class constraint; a nonempty list matches
an element iff some class token of the element occurs in the list (this is
the BeautifulSoup multi-valued class matching the source relies on).
Each `(key, value)` pair must match the attribute exactly. -/
structure Filter where
  tag : Option String
  classes : List String
  attrs : List (String × String)

def nodeMatches (f : Filter) (n : Node) : Bool :=
  (match f.tag with
    | none => true
    | some t => n.tag == t) &&
  (f.classes.isEmpty || n.classes.any (fun c => f.classes.contains c)) &&
  f.attrs.all (fun p => n.getAttr? p.1 == some p.2)

mutual
/-- First matching element of a forest, in document (pre-)order. -/
def findF (f : Filter) : Forest → Option Node
  | .nil => none
  | .cons n rest =>
    if nodeMatches f n then some n
    else
      match findIn f n with
      | some m => some m
      | none => findF f rest

/-- BeautifulSoup `tag.find(...)`: first matching strict descendant. -/
def findIn (f : Filter) : Node → Option Node
  | .mk _ _ _ _ cs => findF f cs
end

mutual
/-- All matching elements of a forest, in document order. -/
def findAllF (f : Filter) : Forest → List Node
  | .nil => []
  | .cons n rest =>
    (if nodeMatches f n then [n] else []) ++ findAllIn f n ++ findAllF f rest

/-- BeautifulSoup `tag.findAll(...)`: all matching strict descendants. -/
def findAllIn (f : Filter) : Node → List Node
  | .mk _ _ _ _ cs => findAllF f cs
end

mutual
/-- Like `findF` but also returns the following siblings of the hit, so
that the source idiom `first = soup.find(...); first.find_next_siblings(...)`
can be modelled without parent pointers. -/
def findSibF (f : Filter) : Forest → Option (Node × Forest)
  | .nil => none
  | .cons n rest =>
    if nodeMatches f n then some (n, rest)
    else
      match findSibIn f n with
      | some r => some r
      | none => findSibF f rest

def findSibIn (f : Filter) : Node → Option (Node × Forest)
  | .mk _ _ _ _ cs => findSibF f cs
end

def forestToList : Forest → List Node
  | .nil => []
  | .cons n rest => n :: forestToList rest

mutual
/-- BeautifulSoup `tag.text`: concatenated text of the element and its
descendants (the direct text of each element taken before its children). -/
def Node.innerText : Node → String
  | .mk _ _ _ s cs => s ++ Forest.textOf cs

def Forest.textOf : Forest → String
  | .nil => ""
  | .cons n rest => n.innerText ++ Forest.textOf rest
end

/-- Python runtime errors the translated code can raise.  `fuelExhausted`
is an artifact of the fuel-bounded translation of the one recursive
method (`parse_roster`); the Python recursion always descends to a strict
subtree, so any fuel at least the tree depth behaves like the source. -/
inductive PyError where
  | attributeError
  | keyError
  | valueError (msg : String)
  | fuelExhausted
deriving DecidableEq, Repr

/-- Result triple of `Telestaff.get_roster_name_field`. -/
structure NameInfo where
  title : String
  notes : String
  isSuppressed : Bool
deriving DecidableEq, Repr

/-- The three capture groups of
`re.search(regexTitlePattern, s)` for the pattern of telestaff.py:340,
namely the pattern  caret ( brace? (dot)? [not-brace]* ) brace? ( [not-closebrace]* ) closebrace? .
Every piece of the pattern is optional, so the search always succeeds at
position 0 and no backtracking can occur: each greedy piece keeps its
maximal match because the remainder of the pattern can never fail.
Group 2 is the optional dot (the suppression marker), reported as a Bool
(the source only tests its truthiness); group 3 always participates in the
match (possibly empty), so `match.lastindex` is always 3 and the guard
`match.lastindex > 1` of telestaff.py:341 is always true. -/
def titleRegexGroups (s : String) : String × Bool × String :=
  let cs := s.data
  -- leading optional brace
  let openBrace : Bool := match cs with
    | c :: _ => c == '{'
    | [] => false
  let r1 := if openBrace then cs.tail else cs
  -- optional dot, capture group 2
  let g2 : Bool := match r1 with
    | c :: _ => c == '.'
    | [] => false
  let r2 := if g2 then r1.tail else r1
  -- greedy run of non-brace characters, closing capture group 1
  let body := r2.takeWhile (fun c => c ≠ '{')
  let r3 := r2.dropWhile (fun c => c ≠ '{')
  let g1 : List Char :=
    (if openBrace then ['{'] else []) ++ (if g2 then ['.'] else []) ++ body
  -- second optional brace (not captured)
  let r4 := match r3 with
    | c :: t => if c == '{' then t else c :: t
    | [] => []
  -- greedy run of non-closing-brace characters, capture group 3
  let g3 := r4.takeWhile (fun c => c ≠ '}')
  (⟨g1⟩, g2, ⟨g3⟩)

/-- The class list of telestaff.py:328. -/
def nameClasses : List String :=
  ["dateName", "organizationName", "battalionName", "shiftName", "unitName", "positionName"]

def nameDivFilter : Filter := ⟨some "div", nameClasses, []⟩

def anySpanFilter : Filter := ⟨some "span", [], []⟩

def positionNameTextFilter : Filter := ⟨some "span", ["positionNameText"], []⟩

/-- `Telestaff.get_roster_name_field` (telestaff.py:318).
If no name div is found the defaults are returned.  Otherwise the title
text is the stripped text of the first span, falling back to the raw text
of a `positionNameText` span when the former is missing or blank (the
fallback dereferences a `find` miss, hence may raise AttributeError).
The title text is then split by the regex of `titleRegexGroups`:
title becomes the stripped group 1 (kept unchanged when group 1 is empty,
which happens only for an empty title text), `isSuppressed` the presence
of the dot of group 2, and `notes` the stripped group 3 unless group 3 is
empty or the suppression dot was present. -/
def get_roster_name_field (soup : Node) : Except PyError NameInfo :=
  match findIn nameDivFilter soup with
  | none => .ok ⟨"", "", false⟩
  | some tmp =>
    let titleSpanE : Except PyError String :=
      match findIn anySpanFilter tmp with
      | some sp =>
        if pyStrip sp.innerText ≠ "" then .ok (pyStrip sp.innerText)
        else
          match findIn positionNameTextFilter tmp with
          | some s2 => .ok s2.innerText
          | none => .error .attributeError
      | none =>
        match findIn positionNameTextFilter tmp with
        | some s2 => .ok s2.innerText
        | none => .error .attributeError
    match titleSpanE with
    | .error e => .error e
    | .ok titleSpan =>
      let (g1, g2, g3) := titleRegexGroups titleSpan
      let title := if g1 ≠ "" then pyStrip g1 else titleSpan
      let isSuppressed := g2
      let notes := if g3 ≠ "" && !isSuppressed then pyStrip g3 else ""
      .ok ⟨title, notes, isSuppressed⟩

/-- A Python value that the member-info dict stores in a field that can
hold either a number, a string or a boolean, depending on the branch the
source takes (`id` and `duration` default to ints but are overwritten with
attribute strings; `isRequest` defaults to a bool but the legacy branch of
telestaff.py:431 stores the raw attribute string). -/
inductive PyVal where
  | int (n : Int)
  | str (s : String)
  | bool (b : Bool)
deriving DecidableEq, Repr

/-- The member dict built by `Telestaff.get_member_info` (telestaff.py:363).
`workcode_style` is an `Option` because the source only creates that key
inside the work-code branch. -/
structure MemberInfo where
  id : PyVal
  name : String
  specialties : String
  badge : String
  workcode : String
  exceptioncode : String
  isRequest : PyVal
  startTime : String
  endTime : String
  duration : PyVal
  isWorking : Bool
  isAssigned : Bool
  isVacant : Bool
  workcode_style : Option String
deriving DecidableEq, Repr

def nonWorkingFilter : Filter := ⟨some "div", ["nonWorking"], []⟩
def unassignedFilter : Filter := ⟨some "div", ["unassignedPosition"], []⟩
def vacancyFilter : Filter := ⟨some "div", ["vacancyDisplay"], []⟩
def resourceDisplayFilter : Filter := ⟨some "div", [], [("data-field", "resourcedisplay")]⟩
def idColumnFilter : Filter := ⟨some "div", [], [("data-field", "idcolumn")]⟩
def workcodeFilter : Filter := ⟨some "div", [], [("data-field", "workcode")]⟩
def exceptionCodeSpanFilter : Filter := ⟨some "span", ["exceptionCode"], []⟩
def svgFilter : Filter := ⟨some "svg", ["svg"], []⟩
def rectFilter : Filter := ⟨some "rect", [], []⟩
def fromTimeFilter : Filter := ⟨some "div", ["shiftTimes"], [("data-popup-title", "From")]⟩
def throughTimeFilter : Filter := ⟨some "div", ["shiftTimes"], [("data-popup-title", "Through")]⟩
def shiftDurationFilter : Filter := ⟨some "div", ["shiftDuration"], []⟩

/-- The style combination of telestaff.py:412-419: the exception-code
span's inline style (if any) creates the `workcode_style` key, and a
styled rect appends a background colour to it — via `+=`, which raises
KeyError when the key was never created. -/
def combine_styles (style0 rectStyle : Option String) : Except PyError (Option String) :=
  match rectStyle with
  | none => .ok style0
  | some rs =>
    match style0 with
    | none => .error .keyError
    | some s0 => .ok (some (s0 ++ "background-color: " ++ rs.replace "fill:" ""))

/-- The work-code branch of `get_member_info` (telestaff.py:407-433), run
only when the work-code div carries `data-popup-title`; returns
(workcode, workcode_style, isRequest, exceptioncode).  The source
dereferences the `find` results for the exception-code span, the svg and
its rect without a None check, so their absence raises AttributeError. -/
def workcode_info (codes : Node) (wt : String) :
    Except PyError (String × Option String × PyVal × String) :=
  match findIn exceptionCodeSpanFilter codes with
  | none => .error .attributeError
  | some styleSpan =>
    match findIn svgFilter codes with
    | none => .error .attributeError
    | some svg =>
      match findIn rectFilter svg with
      | none => .error .attributeError
      | some rect =>
        match combine_styles (styleSpan.getAttr? "style") (rect.getAttr? "style") with
        | .error e => .error e
        | .ok style1 =>
          -- telestaff.py:425: the status-enum check runs first ...
          let isReq1 : PyVal := match codes.getAttr? "data-popup-statusenum" with
            | some e => .bool (e == "APPROVAL_PENDING")
            | none => .bool false
          -- ... and telestaff.py:430 then unconditionally overwrites the
          -- result whenever the legacy attribute is present (not an elif).
          let isReq2 : PyVal := match codes.getAttr? "data-popup-request" with
            | some v => .str v
            | none => isReq1
          match findIn exceptionCodeSpanFilter codes with
          | none => .error .attributeError
          | some exceptCode => .ok (wt, style1, isReq2, exceptCode.innerText)

/-- The guarded work-code section of telestaff.py:407-433: the block runs
only when the work-code div carries `data-popup-title`; otherwise the four
fields it would set keep their defaults. -/
def workcode_block (codes : Node) :
    Except PyError (String × Option String × PyVal × String) :=
  match codes.getAttr? "data-popup-title" with
  | some wt => workcode_info codes wt
  | none => .ok ("", none, .bool false, "")

/-- `Telestaff.get_member_info` (telestaff.py:352).  Field defaults follow
the dict literal of telestaff.py:363-375.  Each `find` result is
dereferenced with `has_attr` without a None check, so a missing
sub-element raises AttributeError, while a found element lacking the
relevant attribute leaves the field at its default. -/
def get_member_info (soup : Node) : Except PyError MemberInfo :=
  let id : PyVal := match soup.getAttr? "data-id" with
    | some v => .str v
    | none => .int 0
  let isWorking := (findIn nonWorkingFilter soup).isNone
  let isAssigned := (findIn unassignedFilter soup).isNone
  let isVacant := (findIn vacancyFilter soup).isSome
  match findIn resourceDisplayFilter soup with
  | none => .error .attributeError
  | some resourceDisplay =>
    let name := (resourceDisplay.getAttr? "data-popup-title").getD ""
    let specialties := (resourceDisplay.getAttr? "data-popup-specialties").getD ""
    match findIn idColumnFilter soup with
    | none => .error .attributeError
    | some fid =>
      let badge := (fid.getAttr? "data-id").getD ""
      match findIn workcodeFilter soup with
      | none => .error .attributeError
      | some codes =>
        match workcode_block codes with
        | .error e => .error e
        | .ok wc =>
          match findIn fromTimeFilter soup with
          | none => .error .attributeError
          | some start_time =>
            let startTime := (start_time.getAttr? "data-popup-value").getD ""
            match findIn throughTimeFilter soup with
            | none => .error .attributeError
            | some end_time =>
              let endTime := (end_time.getAttr? "data-popup-value").getD ""
              match findIn shiftDurationFilter soup with
              | none => .error .attributeError
              | some durationDiv =>
                let duration : PyVal := match durationDiv.getAttr? "data-popup-value" with
                  | some v => .str v
                  | none => .int 24
                .ok { id := id, name := name, specialties := specialties, badge := badge,
                      workcode := wc.1, exceptioncode := wc.2.2.2, isRequest := wc.2.2.1,
                      startTime := startTime, endTime := endTime, duration := duration,
                      isWorking := isWorking, isAssigned := isAssigned, isVacant := isVacant,
                      workcode_style := wc.2.1 }

/-- One roster record as built by `Telestaff.parse_roster` for a hierarchy
item: the Python dict merges the name triple of `get_roster_name_field`,
then either (for a `Position` item) the member dict, or the mapping of
nested child groups.  The key sets are disjoint, so the flat dict is
modelled as one record; `children` is the mapping from group type to the
ordered list of child records (empty when the item is a leaf). -/
inductive RVal where
  | mk (title notes : String) (isSuppressed : Bool) (member : Option MemberInfo)
       (children : List (String × List RVal))

/-- The `parse_roster` result: a Python dict from group type to an ordered
list of records, in key-insertion order. -/
abbrev RDict := List (String × List RVal)

def RVal.title : RVal → String
  | .mk t _ _ _ _ => t

def RVal.member : RVal → Option MemberInfo
  | .mk _ _ _ m _ => m

/-- `data.setdefault(groupType, []).append(groupData)` of telestaff.py:490
on an insertion-ordered dict: append to the list of an existing key, or
add the key at the end. -/
def dictAppend : RDict → String → RVal → RDict
  | [], k, v => [(k, [v])]
  | (k1, vs) :: rest, k, v =>
    if k1 == k then (k1, vs ++ [v]) :: rest
    else (k1, vs) :: dictAppend rest k v

/-- Lookup of the list stored under a key (empty when absent). -/
def dictLookup (k : String) : RDict → List RVal
  | [] => []
  | (k1, vs) :: rest => if k1 == k then vs else dictLookup k rest

/-- The eight hierarchy-level class markers of telestaff.py:463. -/
def idClasses : List String :=
  ["idDate", "idInstitution", "idAgency", "idBatallion", "idShift", "idStation",
   "idUnit", "idPosition"]

def idLiFilter : Filter := ⟨some "li", idClasses, []⟩

/-- The loop body of `Telestaff.parse_roster` (telestaff.py:476-490) for a
single hierarchy item, parameterised by the recursive call (`recurse` is
`parse_roster` at the next fuel level).  `li["class"][0][2:]` raises
KeyError when the item has no class attribute; the source then strips the
first two characters of the first class token. -/
def roster_item_with (recurse : Node → Except PyError RDict) (li : Node) :
    Except PyError (String × RVal) :=
  match li.classes with
  | [] => .error .keyError
  | c :: _ =>
    let groupType := c.drop 2
    match get_roster_name_field li with
    | .error e => .error e
    | .ok nf =>
      if groupType == "Position" then
        match get_member_info li with
        | .error e => .error e
        | .ok mi => .ok (groupType, .mk nf.title nf.notes nf.isSuppressed (some mi) [])
      else
        match findIn idLiFilter li with
        | some _ =>
          match recurse li with
          | .error e => .error e
          | .ok ch => .ok (groupType, .mk nf.title nf.notes nf.isSuppressed none ch)
        | none => .ok (groupType, .mk nf.title nf.notes nf.isSuppressed none [])

/-- The loop of telestaff.py:476-490 over the collected sibling items,
threading the insertion-ordered output dict. -/
def parse_roster_items_with (recurse : Node → Except PyError RDict) :
    List Node → RDict → Except PyError RDict
  | [], data => .ok data
  | li :: rest, data =>
    match roster_item_with recurse li with
    | .error e => .error e
    | .ok r => parse_roster_items_with recurse rest (dictAppend data r.1 r.2)

/-- `Telestaff.parse_roster` (telestaff.py:451).  The source finds the
first descendant item carrying a hierarchy class, takes it together with
its following siblings that carry one too, and folds the loop body over
that list; when the first `find` misses, `None.find_next_siblings` of
telestaff.py:470 raises AttributeError.  The Python recursion descends to
a strict subtree on every recursive call and so always terminates; the
translation makes that explicit with a fuel bound on the recursion depth
(one unit per nesting level), and the theorems below hold for every fuel
value that the stated hypotheses admit. -/
def parse_roster : Nat → Node → Except PyError RDict
  | 0, _ => throw .fuelExhausted
  | fuel + 1, soup =>
    match findSibIn idLiFilter soup with
    | none => throw .attributeError
    | some (first_li, sibs) =>
      let lis := first_li :: (forestToList sibs).filter (nodeMatches idLiFilter)
      parse_roster_items_with (parse_roster fuel) lis []

/-- Return value of `Telestaff.parse_web_staff_roster`: either the error
dict of telestaff.py:515, or the `parse_roster` dict with the added entry
`type: "roster"` of telestaff.py:519. -/
inductive RosterOut where
  | err (msg : String)
  | roster (groups : RDict)

def rosterTableFilter : Filter := ⟨some "ol", ["rosterTableList"], []⟩

/-- `Telestaff.parse_web_staff_roster` (telestaff.py:495) on the parsed
document tree: find all roster-table lists, return the error dict when
there are none, else parse the first one. -/
def parse_web_staff_roster (fuel : Nat) (doc : Node) : Except PyError RosterOut :=
  match findAllIn rosterTableFilter doc with
  | [] => .ok (.err "No roster found")
  | soup :: _ =>
    match parse_roster fuel soup with
    | .error e => .error e
    | .ok roster => .ok (.roster roster)

/-- `Telestaff.get_clean_string` (telestaff.py:281): cleaned text of the
first element with the given tag and class, `none` when absent (the
source returns the falsy `False` then). -/
def get_clean_string (soup : Node) (className : String) (element : String := "div") :
    Option String :=
  match findIn ⟨some element, [className], []⟩ soup with
  | some t => some (clean_string t.innerText)
  | none => none

/-- The event dict of the loop body of `Telestaff.parse_calendar`
(telestaff.py:538-585): keys other than `type` and `isRequest` exist only
when the corresponding lookup produced a truthy value. -/
structure CalEvent where
  type : String
  isRequest : Bool
  name : Option String
  location : Option String
  time : Option String
  length : Option String
  exceptionCode : Option String
  iconStyle : Option String
deriving DecidableEq, Repr

/-- A day entry of the `parse_calendar` result (telestaff.py:589). -/
structure CalDay where
  date : String
  events : List CalEvent
deriving DecidableEq, Repr

/-- Python `if value:` applied to a `get_clean_string` result: the key is
set only when the element was found and its cleaned text is nonempty. -/
def truthyString (o : Option String) : Option String :=
  match o with
  | some s => if s = "" then none else some s
  | none => none

def glyphAsteriskFilter : Filter := ⟨some "span", ["glyphicon-asterisk"], []⟩
def listItemBoxFilter : Filter := ⟨some "div", ["listItemBox"], []⟩
def anyDivFilter : Filter := ⟨some "div", [], []⟩

/-- One event of the loop of telestaff.py:538-585.  The icon lookup
dereferences `eventsoup.find("div", "listItemBox").div` without None
checks, so a missing box or missing inner div raises AttributeError. -/
def parse_event (eventsoup : Node) : Except PyError CalEvent :=
  let name := truthyString (get_clean_string eventsoup "listItemName")
  let isRequest := (findIn glyphAsteriskFilter eventsoup).isSome
  let location := truthyString (get_clean_string eventsoup "listItemWhere")
  let type1 := (eventsoup.getAttr? "data-attrtype").getD "unknown"
  let time := truthyString (get_clean_string eventsoup "listItemStartTime")
  let length := truthyString (get_clean_string eventsoup "listItemHours")
  let code := truthyString (get_clean_string eventsoup "exception")
  match findIn listItemBoxFilter eventsoup with
  | none => .error .attributeError
  | some box =>
    match findIn anyDivFilter box with
    | none => .error .attributeError
    | some box2 =>
      let iconStyle := (box2.getAttr? "style").map clean_string
      .ok { type := type1, isRequest := isRequest, name := name, location := location,
            time := time, length := length, exceptionCode := code, iconStyle := iconStyle }

/-- Effectful map in list order, the translation of the sequential Python
loops (Lean's library `mapM` is accumulator-based, which is inconvenient
for the induction proofs below). -/
def mapME {α β : Type} (f : α → Except PyError β) : List α → Except PyError (List β)
  | [] => .ok []
  | a :: rest =>
    match f a with
    | .error e => .error e
    | .ok b =>
      match mapME f rest with
      | .error e => .error e
      | .ok bs => .ok (b :: bs)

/-- Lowercased full weekday names of the C locale, as matched by the
`%A` directive of `strptime` (matching is case-insensitive and the parsed
weekday is not validated against the date). -/
def weekdayNames : List String :=
  ["monday", "tuesday", "wednesday", "thursday", "friday", "saturday", "sunday"]

/-- Lowercased full month names of the C locale (`%B`), month 1 first. -/
def monthNames : List String :=
  ["january", "february", "march", "april", "may", "june", "july", "august",
   "september", "october", "november", "december"]

/-- Case-insensitive match of a lowercase name against the front of the
input; returns the rest of the input. -/
def matchCI : List Char → List Char → Option (List Char)
  | [], cs => some cs
  | _ :: _, [] => none
  | a :: as, c :: cs => if c.toLower = a then matchCI as cs else none

/-- First name of the list matching the front of the input, with its
position offset by `i`; no listed name is a prefix of another, so the
first match is the only one. -/
def matchName (i : Nat) (names : List String) (cs : List Char) :
    Option (Nat × List Char) :=
  match names with
  | [] => none
  | n :: rest =>
    match matchCI n.data cs with
    | some r => some (i, r)
    | none => matchName (i + 1) rest cs

/-- A literal character of the format. -/
def expectChar (c : Char) : List Char → Option (List Char)
  | x :: r => if x = c then some r else none
  | [] => none

/-- A whitespace character of the format matches one or more whitespace
characters of the input (greedily; no later directive can consume
whitespace, so greediness is exact). -/
def ws1 : List Char → Option (List Char)
  | c :: r => if pyIsSpace c then some (r.dropWhile pyIsSpace) else none
  | [] => none

/-- The `%d` directive: the regex alternation 3[01] | [12][0-9] | 0[1-9]
| [1-9], tried in this order.  A locally shorter alternative can never
rescue a failed longer one here (the following format character is a
comma, never a digit), so first-match is exact. -/
def matchDay : List Char → Option (Nat × List Char)
  | '3' :: '0' :: r => some (30, r)
  | '3' :: '1' :: r => some (31, r)
  | c1 :: c2 :: r =>
    if (c1 = '1' ∨ c1 = '2') ∧ c2.isDigit then
      some ((c1.toNat - 48) * 10 + (c2.toNat - 48), r)
    else if c1 = '0' ∧ '1' ≤ c2 ∧ c2 ≤ '9' then
      some (c2.toNat - 48, r)
    else if '1' ≤ c1 ∧ c1 ≤ '9' then
      some (c1.toNat - 48, c2 :: r)
    else none
  | [c1] => if '1' ≤ c1 ∧ c1 ≤ '9' then some (c1.toNat - 48, []) else none
  | [] => none

/-- The `%Y` directive: exactly four digits. -/
def matchYear4 : List Char → Option (Nat × List Char)
  | a :: b :: c :: d :: r =>
    if a.isDigit ∧ b.isDigit ∧ c.isDigit ∧ d.isDigit then
      some ((((a.toNat - 48) * 10 + (b.toNat - 48)) * 10 + (c.toNat - 48)) * 10
              + (d.toNat - 48), r)
    else none
  | _ => none

def isLeapYear (y : Nat) : Bool :=
  y % 4 = 0 && (y % 100 ≠ 0 || y % 400 = 0)

def daysInMonth (y m : Nat) : Nat :=
  if m = 2 then (if isLeapYear y then 29 else 28)
  else if m = 4 ∨ m = 6 ∨ m = 9 ∨ m = 11 then 30
  else 31

/-- `datetime.strptime(s, "%A, %B %d, %Y")` as (year, month, day):
weekday name (parsed, not validated), comma, whitespace, month name,
whitespace, day, comma, whitespace, four-digit year, end of input; the
`datetime` constructor then requires a positive year and a day within the
month.  `none` models the ValueError of a failed parse. -/
def strptimeADY (s : String) : Option (Nat × Nat × Nat) := do
  let (_, r1) ← matchName 0 weekdayNames s.data
  let r2 ← expectChar ',' r1
  let r3 ← ws1 r2
  let (m, r4) ← matchName 1 monthNames r3
  let r5 ← ws1 r4
  let (d, r6) ← matchDay r5
  let r7 ← expectChar ',' r6
  let r8 ← ws1 r7
  let (y, r9) ← matchYear4 r8
  if r9 = [] ∧ 1 ≤ y ∧ d ≤ daysInMonth y m then some (y, m, d) else none

def pad2 (n : Nat) : String :=
  if n < 10 then "0" ++ toString n else toString n

/-- `.strftime("%Y%m%d")` on the parsed date: month and day zero-padded to
two digits; `%Y` prints the year unpadded on the glibc platform the
source targets (only four-digit years reach this point in practice). -/
def strftimeYmd : Nat × Nat × Nat → String
  | (y, m, d) => toString y ++ pad2 m ++ pad2 d

def calendarDayFilter : Filter := ⟨some "div", ["calendarDay"], []⟩
def dateDivFilter : Filter := ⟨some "div", ["dateDiv"], []⟩
def listItemFilter : Filter := ⟨some "div", ["listItem"], []⟩

/-- The per-day body of the loop of `Telestaff.parse_calendar`
(telestaff.py:530-591): the date text is read first (a missing dateDiv
raises AttributeError), then the events are extracted, and only when the
day entry is appended is the date parsed with the fixed format — a parse
failure is the ValueError of `strptime`, never a skipped day. -/
def parse_calendar_day (day : Node) : Except PyError CalDay :=
  match findIn dateDivFilter day with
  | none => .error .attributeError
  | some dateDiv =>
    let dateText := pyStrip dateDiv.innerText
    match mapME parse_event (findAllIn listItemFilter day) with
    | .error e => .error e
    | .ok events =>
      match strptimeADY dateText with
      | none => .error (.valueError "time data does not match format")
      | some ymd => .ok ⟨strftimeYmd ymd, events⟩

/-- `Telestaff.parse_calendar` (telestaff.py:524). -/
def parse_calendar (soup : Node) : Except PyError (List CalDay) :=
  mapME parse_calendar_day (findAllIn calendarDayFilter soup)

/-- An HTTP response as far as `do_login` inspects one: final status code
and resolved URL. -/
structure HttpResp where
  status_code : Nat
  url : String
deriving DecidableEq, Repr

/-- The environment `Telestaff.do_login` (telestaff.py:656) runs in:
whether the optional NTLM library imported, the response to the login-page
GET, the CSRF token that `get_csrf_token` extracts from that page (the
value of the hidden `CSRFToken` input, `none` when absent), and the
response to the credentials POST. -/
structure LoginWorld where
  ntlmAvailable : Bool
  loginPageResp : HttpResp
  csrfToken : Option String
  loginResp : HttpResp
deriving DecidableEq, Repr

/-- Return value of `do_login`: `build_response_dict` dicts, or the bare
`False` of telestaff.py:683. -/
inductive DoLoginResult where
  | dict (status_code : Nat) (data : String)
  | boolFalse
deriving DecidableEq, Repr

/-- `Telestaff.do_login` (telestaff.py:656-702), with the network modelled
by `LoginWorld`.  Control flow of the source:
1. on a 401 with the NTLM library present, telestaff.py:669 calls
   `self.domainUser()`, a method that does not exist (it is named
   `domain_user`), so AttributeError reaches the blanket
   `except Exception` handler of telestaff.py:701;
2. `raise_for_status` turns any 4xx or 5xx into an HTTPError caught at
   telestaff.py:696;
3. a remaining non-200 status returns a 500 dict whose message carries
   the status code (the f-string of telestaff.py:677, typos included);
4. a missing CSRF token returns `False`;
5. otherwise the source POSTs the credentials and reaches
   telestaff.py:694, `build_response_dict(login_response.status_code, data)`
   — but the local `data` is only ever assigned inside the early-return
   branch of step 3, so this read raises UnboundLocalError, which the
   blanket `except Exception` turns into the 500 dict below.  The status
   code and URL of the login response are never consulted.
The messages are the literal (non-f-)strings of the source. -/
def do_login (w : LoginWorld) : DoLoginResult :=
  if w.loginPageResp.status_code == 401 && w.ntlmAvailable then
    .dict 500 "Login failed with unknown error: \x7be\x7d"
  else if 400 ≤ w.loginPageResp.status_code ∧ w.loginPageResp.status_code < 600 then
    .dict 500 "Login failed with HTTP Error: \x7be\x7d"
  else if w.loginPageResp.status_code ≠ 200 then
    .dict 500 ("Application error loging onto Teletsaff: "
      ++ toString w.loginPageResp.status_code)
  else
    match w.csrfToken with
    | none => .boolFalse
    | some _ => .dict 500 "Login failed with unknown error: \x7be\x7d"

/-! ## Concrete input trees used by the witnesses and counterexamples -/

/-- A position item whose six member sub-elements are all present but
carry none of the optional attributes. -/
def memberPlainNode : Node :=
  .mk "li" ["idPosition"] [] ""
    (.cons (.mk "div" [] [("data-field", "resourcedisplay")] "" .nil)
    (.cons (.mk "div" [] [("data-field", "idcolumn")] "" .nil)
    (.cons (.mk "div" [] [("data-field", "workcode")] "" .nil)
    (.cons (.mk "div" ["shiftTimes"] [("data-popup-title", "From")] "" .nil)
    (.cons (.mk "div" ["shiftTimes"] [("data-popup-title", "Through")] "" .nil)
    (.cons (.mk "div" ["shiftDuration"] [] "" .nil) .nil))))))

/-- A position item with no sub-elements at all. -/
def memberEmptyNode : Node := .mk "li" ["idPosition"] [] "" .nil

/-- A work-code div carrying both the status-enum attribute (equal to
APPROVAL_PENDING) and the legacy request attribute, together with the
sub-elements the work-code branch dereferences. -/
def c3codesNode : Node :=
  .mk "div" []
    [("data-field", "workcode"), ("data-popup-title", "RD"),
     ("data-popup-statusenum", "APPROVAL_PENDING"), ("data-popup-request", "no")]
    ""
    (.cons (.mk "span" ["exceptionCode"] [] "EX" .nil)
    (.cons (.mk "svg" ["svg"] [] "" (.cons (.mk "rect" [] [] "" .nil) .nil)) .nil))

/-- A position item containing `c3codesNode` and the other required
member sub-elements. -/
def c3node : Node :=
  .mk "li" ["idPosition"] [] ""
    (.cons (.mk "div" [] [("data-field", "resourcedisplay")] "" .nil)
    (.cons (.mk "div" [] [("data-field", "idcolumn")] "" .nil)
    (.cons c3codesNode
    (.cons (.mk "div" ["shiftTimes"] [("data-popup-title", "From")] "" .nil)
    (.cons (.mk "div" ["shiftTimes"] [("data-popup-title", "Through")] "" .nil)
    (.cons (.mk "div" ["shiftDuration"] [] "" .nil) .nil))))))

/-- The member record extracted from `c3node`. -/
def c3member : MemberInfo :=
  ⟨.int 0, "", "", "", "RD", "EX", .str "no", "", "", .int 24, true, true, false, none⟩

/-- An item whose title text starts with the brace-dot suppression marker
and carries a trailing brace annotation. -/
def c4node : Node :=
  .mk "li" ["idShift"] [] ""
    (.cons (.mk "div" ["shiftName"] [] ""
      (.cons (.mk "span" [] [] "\x7b.Hidden\x7d \x7bstuff\x7d" .nil) .nil)) .nil)

/-- An item whose whole title text is one brace-enclosed group. -/
def c5node : Node :=
  .mk "li" ["idShift"] [] ""
    (.cons (.mk "div" ["shiftName"] [] ""
      (.cons (.mk "span" [] [] "\x7bnote\x7d" .nil) .nil)) .nil)

def c5wSpan : Node := .mk "span" [] [] "Smith \x7bacting\x7d" .nil

def c5wDiv : Node := .mk "div" ["positionName"] [] "" (.cons c5wSpan .nil)

/-- An item whose title text is a name followed by a brace annotation. -/
def c5wNode : Node := .mk "li" ["idPosition"] [] "" (.cons c5wDiv .nil)

/-- A leaf hierarchy item with the given id class and title text. -/
def rosterLeafLi (cls title : String) : Node :=
  .mk "li" [cls] [] ""
    (.cons (.mk "div" ["shiftName"] [] ""
      (.cons (.mk "span" [] [] title .nil) .nil)) .nil)

/-- A roster table whose items are two Shift siblings followed by a Unit
sibling. -/
def c6tree : Node :=
  .mk "ol" ["rosterTableList"] [] ""
    (.cons (rosterLeafLi "idShift" "A1")
    (.cons (rosterLeafLi "idShift" "A2")
    (.cons (rosterLeafLi "idUnit" "B1") .nil)))

def c6rec (title : String) : RVal := .mk title "" false none []

/-- A recursion stub for exercising the sibling loop on leaf items (the
loop never calls it on items without nested hierarchy items). -/
def c6recStub : Node → Except PyError RDict := fun _ => .error .attributeError

/-- A document with no roster-table ordered list. -/
def c7doc : Node := .mk "document" [] [] "" (.cons (.mk "div" [] [] "x" .nil) .nil)

/-- A roster-table ordered list with no hierarchy item, inside a document. -/
def c10ol : Node := .mk "ol" ["rosterTableList"] [] "" (.cons (.mk "li" [] [] "" .nil) .nil)

def c10doc : Node := .mk "document" [] [] "" (.cons c10ol .nil)

/-- A calendar-day block whose date label parses. -/
def c9goodDay : Node :=
  .mk "div" ["calendarDay"] [] ""
    (.cons (.mk "div" ["dateDiv"] [] "Monday, January 01, 2024" .nil) .nil)

def c9goodDoc : Node := .mk "document" [] [] "" (.cons c9goodDay .nil)

def c9badDateDiv : Node := .mk "div" ["dateDiv"] [] "01/01/2024" .nil

/-- A calendar-day block whose date label does not match the format. -/
def c9badDay : Node := .mk "div" ["calendarDay"] [] "" (.cons c9badDateDiv .nil)

def c9badDoc : Node := .mk "document" [] [] "" (.cons c9badDay .nil)

/-! ## Helper lemmas -/

theorem takeWhile_append_all {α : Type} (p : α → Bool) (a : List α) (c : α) (r : List α)
    (ha : ∀ x ∈ a, p x = true) (hc : p c = false) :
    (a ++ c :: r).takeWhile p = a := by
  induction a with
  | nil => simp [List.takeWhile, hc]
  | cons y ys ih =>
    have hy : p y = true := ha y (List.mem_cons_self y ys)
    have ih2 := ih (fun x hx => ha x (List.mem_cons_of_mem y hx))
    simp [List.takeWhile, hy, ih2]

theorem dropWhile_append_all {α : Type} (p : α → Bool) (a : List α) (c : α) (r : List α)
    (ha : ∀ x ∈ a, p x = true) (hc : p c = false) :
    (a ++ c :: r).dropWhile p = c :: r := by
  induction a with
  | nil => simp [List.dropWhile, hc]
  | cons y ys ih =>
    have hy : p y = true := ha y (List.mem_cons_self y ys)
    have ih2 := ih (fun x hx => ha x (List.mem_cons_of_mem y hx))
    simp [List.dropWhile, hy, ih2]

theorem mapME_ok_of_mem {α β : Type} (f : α → Except PyError β) (l : List α)
    (ys : List β) (h : mapME f l = .ok ys) (a : α) (ha : a ∈ l) :
    ∃ b, f a = .ok b := by
  induction l generalizing ys with
  | nil => cases ha
  | cons x rest ih =>
    unfold mapME at h
    rcases hf : f x with e | b
    · rw [hf] at h
      cases h
    rw [hf] at h
    rcases hm : mapME f rest with e | bs
    · rw [hm] at h
      cases h
    rw [hm] at h
    rcases List.mem_cons.mp ha with rfl | hmem
    · exact ⟨b, hf⟩
    · exact ih bs hm hmem


theorem dictLookup_dictAppend (d : RDict) (k key : String) (v : RVal) :
    dictLookup k (dictAppend d key v) =
      if key = k then dictLookup k d ++ [v] else dictLookup k d := by
  induction d with
  | nil =>
    by_cases hk : key = k <;> simp [dictAppend, dictLookup, hk]
  | cons p rest ih =>
    obtain ⟨k1, vs⟩ := p
    by_cases h1 : k1 = key
    · subst h1
      by_cases h2 : k1 = k
      · subst h2
        simp [dictAppend, dictLookup]
      · simp [dictAppend, dictLookup, h2]
    · by_cases h2 : k1 = k
      · subst h2
        have hne : key ≠ k1 := fun h => h1 h.symm
        simp [dictAppend, dictLookup, h1, hne]
      · simp [dictAppend, dictLookup, h1, h2, ih]

theorem items_order (recurse : Node → Except PyError RDict) (lis : List Node)
    (d out : RDict) (recs : List (String × RVal))
    (h1 : parse_roster_items_with recurse lis d = .ok out)
    (h2 : mapME (roster_item_with recurse) lis = .ok recs) (k : String) :
    dictLookup k out =
      dictLookup k d ++ (recs.filter (fun r => r.1 == k)).map (fun r => r.2) := by
  induction lis generalizing d recs with
  | nil =>
    unfold parse_roster_items_with at h1
    unfold mapME at h2
    cases h1
    cases h2
    simp
  | cons li rest ih =>
    unfold parse_roster_items_with at h1
    unfold mapME at h2
    rcases hr : roster_item_with recurse li with e | r
    · rw [hr] at h1
      cases h1
    rw [hr] at h1 h2
    rcases hm : mapME (roster_item_with recurse) rest with e | bs
    · rw [hm] at h2
      cases h2
    rw [hm] at h2
    cases h2
    have hrec := ih (dictAppend d r.1 r.2) bs h1 hm
    rw [hrec, dictLookup_dictAppend]
    by_cases hk : r.1 = k
    · simp [List.filter_cons, hk, List.append_assoc]
    · simp [List.filter_cons, hk]



theorem member_ok_inversion (n : Node) (m : MemberInfo)
    (h : get_member_info n = .ok m) :
    ∃ rd fid codes wc st et du,
      findIn resourceDisplayFilter n = some rd ∧
      findIn idColumnFilter n = some fid ∧
      findIn workcodeFilter n = some codes ∧
      workcode_block codes = .ok wc ∧
      findIn fromTimeFilter n = some st ∧
      findIn throughTimeFilter n = some et ∧
      findIn shiftDurationFilter n = some du ∧
      m = { id := match n.getAttr? "data-id" with
                  | some v => .str v
                  | none => .int 0,
            name := (rd.getAttr? "data-popup-title").getD "",
            specialties := (rd.getAttr? "data-popup-specialties").getD "",
            badge := (fid.getAttr? "data-id").getD "",
            workcode := wc.1, exceptioncode := wc.2.2.2, isRequest := wc.2.2.1,
            startTime := (st.getAttr? "data-popup-value").getD "",
            endTime := (et.getAttr? "data-popup-value").getD "",
            duration := match du.getAttr? "data-popup-value" with
                        | some v => .str v
                        | none => .int 24,
            isWorking := (findIn nonWorkingFilter n).isNone,
            isAssigned := (findIn unassignedFilter n).isNone,
            isVacant := (findIn vacancyFilter n).isSome,
            workcode_style := wc.2.1 } := by
  unfold get_member_info at h
  rcases h1 : findIn resourceDisplayFilter n with _ | rd
  · simp [h1] at h
  simp only [h1] at h
  rcases h2 : findIn idColumnFilter n with _ | fid
  · simp [h2] at h
  simp only [h2] at h
  rcases h3 : findIn workcodeFilter n with _ | codes
  · simp [h3] at h
  simp only [h3] at h
  rcases hw : workcode_block codes with e | wc
  · simp [hw] at h
  simp only [hw] at h
  rcases h5 : findIn fromTimeFilter n with _ | st
  · simp [h5] at h
  simp only [h5] at h
  rcases h6 : findIn throughTimeFilter n with _ | et
  · simp [h6] at h
  simp only [h6] at h
  rcases h7 : findIn shiftDurationFilter n with _ | du
  · simp [h7] at h
  simp only [h7] at h
  cases h
  exact ⟨rd, fid, codes, wc, st, et, du, rfl, rfl, rfl, hw, rfl, rfl, rfl, rfl⟩

theorem workcode_info_isRequest (codes : Node) (wt : String)
    (r : String × Option String × PyVal × String)
    (h : workcode_info codes wt = .ok r) :
    (∀ v, codes.getAttr? "data-popup-request" = some v → r.2.2.1 = .str v) ∧
    (codes.getAttr? "data-popup-request" = none →
      ∀ e, codes.getAttr? "data-popup-statusenum" = some e →
        r.2.2.1 = .bool (e == "APPROVAL_PENDING")) := by
  unfold workcode_info at h
  rcases s1 : findIn exceptionCodeSpanFilter codes with _ | sp
  · simp [s1] at h
  simp only [s1] at h
  rcases s2 : findIn svgFilter codes with _ | svg
  · simp [s2] at h
  simp only [s2] at h
  rcases s3 : findIn rectFilter svg with _ | rect
  · simp [s3] at h
  simp only [s3] at h
  rcases s4 : combine_styles (sp.getAttr? "style") (rect.getAttr? "style") with e | st1
  · simp [s4] at h
  simp only [s4] at h
  cases h
  constructor
  · intro v hv
    simp [hv]
  · intro hnone e he
    simp [hnone, he]

/-- The title regex on a text of the shape `a{b}` with a nonempty
brace-free leading segment not starting with a dot: group 1 is the
leading segment, the suppression group does not match, and group 3 is the
brace-enclosed segment. -/
theorem titleRegexGroups_split (a b : List Char)
    (ha0 : a ≠ []) (haBrace : '{' ∉ a) (haDot : a.head? ≠ some '.')
    (hbC : '}' ∉ b) :
    titleRegexGroups ⟨a ++ '{' :: (b ++ ['}'])⟩ = (⟨a⟩, false, ⟨b⟩) := by
  obtain ⟨x, as, rfl⟩ := List.exists_cons_of_ne_nil ha0
  have hx : (x == '{') = false := by
    simp only [beq_eq_false_iff_ne]
    intro hEq
    exact haBrace (hEq ▸ List.mem_cons_self x as)
  have hxd : (x == '.') = false := by
    simp only [beq_eq_false_iff_ne]
    intro hEq
    exact haDot (by simp [hEq])
  have hbody : ((x :: as) ++ '{' :: (b ++ ['}'])).takeWhile (fun c => c ≠ '{') = x :: as := by
    refine takeWhile_append_all _ _ _ _ ?_ (by simp)
    intro y hy
    simp only [decide_eq_true_eq]
    intro hEq
    exact haBrace (hEq ▸ hy)
  have hdrop : ((x :: as) ++ '{' :: (b ++ ['}'])).dropWhile (fun c => c ≠ '{') =
      '{' :: (b ++ ['}']) := by
    refine dropWhile_append_all _ _ _ _ ?_ (by simp)
    intro y hy
    simp only [decide_eq_true_eq]
    intro hEq
    exact haBrace (hEq ▸ hy)
  have hg3 : (b ++ ['}']).takeWhile (fun c => c ≠ '}') = b := by
    refine takeWhile_append_all _ _ _ [] ?_ (by simp)
    intro y hy
    simp only [decide_eq_true_eq]
    intro hEq
    exact hbC (hEq ▸ hy)
  unfold titleRegexGroups
  rw [List.cons_append] at hbody hdrop
  simp only [List.cons_append, hx, hxd, Bool.false_eq_true, if_false, hbody, hdrop, hg3]
  simp only [beq_self_eq_true, if_true, List.nil_append]
  rw [hg3]

/-! ## Claim theorems -/

/-- C1 (code_bug): the claim says `do_login` reports success iff the final
login response has status 200 and its resolved URL is not the login page
path, returning a result carrying that status code.  The code cannot do
this: on the path that would report success it evaluates the local `data`,
which was only ever assigned inside the early-return branch for a non-200
login page, so telestaff.py:694 raises UnboundLocalError and the blanket
handler returns a 500 failure dict instead — as this evaluation at a
successful login (status 200, URL not the login page) shows.  The login
response URL is never consulted at all. -/
theorem c1_do_login_unbound_local :
    do_login ⟨false, ⟨200, "https://host/login"⟩, some "token",
              ⟨200, "https://host/calendar/dashboard"⟩⟩ =
      .dict 500 "Login failed with unknown error: \x7be\x7d" := rfl

/-- C4 (confirmed): every result of `get_roster_name_field` with
`isSuppressed = true` has empty `notes`, whatever trailing brace content
the title carried: the source only assigns `notes` when the suppression
group did not match. -/
theorem c4_suppression_blank_notes (n : Node) (r : NameInfo)
    (h : get_roster_name_field n = .ok r) (hs : r.isSuppressed = true) :
    r.notes = "" := by
  unfold get_roster_name_field at h
  repeat' split at h
  all_goals cases h
  all_goals simp_all

/-- Witness for C4 at a title with a suppression marker and a trailing
brace annotation. -/
theorem c4_suppression_blank_notes_witness :
    get_roster_name_field c4node = .ok ⟨"\x7b.Hidden\x7d", "", true⟩ ∧
    (NameInfo.mk "\x7b.Hidden\x7d" "" true).notes = "" :=
  ⟨rfl, c4_suppression_blank_notes c4node ⟨"\x7b.Hidden\x7d", "", true⟩ rfl rfl⟩

/-- C7 (confirmed): on a document containing no ordered list tagged as the
roster table, `parse_web_staff_roster` returns the error dict
(no exception), for every fuel value. -/
theorem c7_no_roster_error_dict (fuel : Nat) (doc : Node)
    (h : findAllIn rosterTableFilter doc = []) :
    parse_web_staff_roster fuel doc = .ok (.err "No roster found") := by
  unfold parse_web_staff_roster
  rw [h]

/-- Witness for C7 at a document without the roster table. -/
theorem c7_no_roster_error_dict_witness :
    findAllIn rosterTableFilter c7doc = [] ∧
    parse_web_staff_roster 1 c7doc = .ok (.err "No roster found") :=
  ⟨rfl, c7_no_roster_error_dict 1 c7doc rfl⟩

/-- C8 (confirmed): when `get_member_info` returns, `isWorking`,
`isAssigned` and `isVacant` are each determined solely by the presence of
their own marker element (the three checks are independent), and a node
with none of the three markers yields `isWorking = true`,
`isAssigned = true`, `isVacant = false`. -/
theorem c8_status_marker_flags (n : Node) (m : MemberInfo)
    (h : get_member_info n = .ok m) :
    (m.isWorking = (findIn nonWorkingFilter n).isNone ∧
     m.isAssigned = (findIn unassignedFilter n).isNone ∧
     m.isVacant = (findIn vacancyFilter n).isSome) ∧
    (findIn nonWorkingFilter n = none → findIn unassignedFilter n = none →
      findIn vacancyFilter n = none →
      m.isWorking = true ∧ m.isAssigned = true ∧ m.isVacant = false) := by
  obtain ⟨rd, fid, codes, wc, st, et, du, h1, h2, h3, hw, h5, h6, h7, rfl⟩ :=
    member_ok_inversion n m h
  refine ⟨⟨rfl, rfl, rfl⟩, ?_⟩
  intro ha hb hc
  simp [ha, hb, hc]

/-- Witness for C8 at a position node with the member sub-elements present
and no status markers. -/
theorem c8_status_marker_flags_witness :
    get_member_info memberPlainNode = .ok
      ⟨.int 0, "", "", "", "", "", .bool false, "", "", .int 24, true, true, false, none⟩ ∧
    ((MemberInfo.mk (.int 0) "" "" "" "" "" (.bool false) "" "" (.int 24)
        true true false none).isWorking = true ∧
     (MemberInfo.mk (.int 0) "" "" "" "" "" (.bool false) "" "" (.int 24)
        true true false none).isAssigned = true ∧
     (MemberInfo.mk (.int 0) "" "" "" "" "" (.bool false) "" "" (.int 24)
        true true false none).isVacant = false) :=
  ⟨rfl, (c8_status_marker_flags memberPlainNode _ rfl).2 rfl rfl rfl⟩

/-- C10 (confirmed): when the roster table is present but contains no item
with any of the eight hierarchy-level classes, `parse_roster` dereferences
the missing first item (`None.find_next_siblings`), so
`parse_web_staff_roster` raises AttributeError instead of returning an
empty mapping tagged as a roster. -/
theorem c10_missing_hierarchy_item_raises (fuel : Nat) (doc ol : Node) (rest : List Node)
    (h1 : findAllIn rosterTableFilter doc = ol :: rest)
    (h2 : findSibIn idLiFilter ol = none) :
    parse_web_staff_roster (fuel + 1) doc = .error .attributeError := by
  unfold parse_web_staff_roster
  simp only [h1]
  unfold parse_roster
  simp only [h2]

/-- Witness for C10 at a document whose roster table holds one unclassed
list item. -/
theorem c10_missing_hierarchy_item_raises_witness :
    findAllIn rosterTableFilter c10doc = [c10ol] ∧
    findSibIn idLiFilter c10ol = none ∧
    parse_web_staff_roster 1 c10doc = .error .attributeError :=
  ⟨rfl, rfl, c10_missing_hierarchy_item_raises 0 c10doc c10ol [] rfl rfl⟩

/-- C2 (counterexample): the claim says any absent sub-lookup leaves its
field at the default and `get_member_info` returns normally.  On a
position node with no sub-elements at all, the source instead raises
AttributeError (telestaff.py:394 dereferences the `find` miss), so no
MemberInfo is produced. -/
theorem c2_absent_element_raises :
    get_member_info memberEmptyNode = .error .attributeError := rfl

/-- C2 (amended): when the member sub-elements are all present but carry
none of the optional attributes (and the node has no id attribute and no
status markers), every field keeps its documented default and
`get_member_info` returns normally. -/
theorem c2_missing_attrs_keep_defaults (n rd fid codes st et du : Node)
    (h1 : findIn resourceDisplayFilter n = some rd)
    (h1a : rd.getAttr? "data-popup-title" = none)
    (h1b : rd.getAttr? "data-popup-specialties" = none)
    (h2 : findIn idColumnFilter n = some fid)
    (h2a : fid.getAttr? "data-id" = none)
    (h3 : findIn workcodeFilter n = some codes)
    (h3a : codes.getAttr? "data-popup-title" = none)
    (h5 : findIn fromTimeFilter n = some st)
    (h5a : st.getAttr? "data-popup-value" = none)
    (h6 : findIn throughTimeFilter n = some et)
    (h6a : et.getAttr? "data-popup-value" = none)
    (h7 : findIn shiftDurationFilter n = some du)
    (h7a : du.getAttr? "data-popup-value" = none)
    (hid : n.getAttr? "data-id" = none)
    (hnw : findIn nonWorkingFilter n = none)
    (hua : findIn unassignedFilter n = none)
    (hvd : findIn vacancyFilter n = none) :
    get_member_info n = .ok
      ⟨.int 0, "", "", "", "", "", .bool false, "", "", .int 24,
       true, true, false, none⟩ := by
  unfold get_member_info
  simp [h1, h1a, h1b, h2, h2a, h3, h5, h5a, h6, h6a, h7, h7a, hid, hnw, hua, hvd,
        workcode_block, h3a]

/-- Witness for the amended C2 at a node with plain sub-elements. -/
theorem c2_missing_attrs_keep_defaults_witness :
    findIn resourceDisplayFilter memberPlainNode =
      some (.mk "div" [] [("data-field", "resourcedisplay")] "" .nil) ∧
    get_member_info memberPlainNode = .ok
      ⟨.int 0, "", "", "", "", "", .bool false, "", "", .int 24,
       true, true, false, none⟩ :=
  ⟨rfl, c2_missing_attrs_keep_defaults memberPlainNode _ _ _ _ _ _
    rfl rfl rfl rfl rfl rfl rfl rfl rfl rfl rfl rfl rfl rfl rfl rfl rfl⟩

/-- C3 (counterexample): the claim says the status-enum attribute takes
priority whenever it is present.  On a work-code div carrying the enum
attribute equal to APPROVAL_PENDING and the legacy request attribute with
value "no", the source returns the raw legacy value instead of the
boolean enum comparison (telestaff.py:430 overwrites unconditionally). -/
theorem c3_enum_not_preferred :
    (get_member_info c3node).map (fun m => m.isRequest) = .ok (.str "no") ∧
    PyVal.str "no" ≠ .bool true :=
  ⟨rfl, by simp⟩

/-- C3 (amended): in the work-code block, the legacy `data-popup-request`
attribute, when present, takes priority and `isRequest` becomes its raw
string value; the status-enum comparison with APPROVAL_PENDING governs
only when the legacy attribute is absent. -/
theorem c3_legacy_flag_overrides_enum (n codes : Node) (m : MemberInfo) (wt : String)
    (h : get_member_info n = .ok m)
    (hc : findIn workcodeFilter n = some codes)
    (ht : codes.getAttr? "data-popup-title" = some wt) :
    (∀ v, codes.getAttr? "data-popup-request" = some v → m.isRequest = .str v) ∧
    (codes.getAttr? "data-popup-request" = none →
      ∀ e, codes.getAttr? "data-popup-statusenum" = some e →
        m.isRequest = .bool (e == "APPROVAL_PENDING")) := by
  obtain ⟨rd, fid, codes2, wc, st, et, du, h1, h2, h3, hw, h5, h6, h7, rfl⟩ :=
    member_ok_inversion n m h
  rw [hc] at h3
  cases h3
  unfold workcode_block at hw
  rw [ht] at hw
  have hreq := workcode_info_isRequest codes wt wc hw
  simpa using hreq

/-- Witness for the amended C3 at `c3node`. -/
theorem c3_legacy_flag_overrides_enum_witness :
    get_member_info c3node = .ok c3member ∧
    findIn workcodeFilter c3node = some c3codesNode ∧
    c3codesNode.getAttr? "data-popup-request" = some "no" ∧
    c3member.isRequest = .str "no" :=
  ⟨rfl, rfl, rfl,
    (c3_legacy_flag_overrides_enum c3node c3codesNode c3member "RD" rfl rfl rfl).1 "no" rfl⟩

/-- C5 (counterexample): the claim says any title text with a
brace-enclosed suffix and no suppression marker yields `notes` equal to
the trimmed suffix and `title` equal to the trimmed leading segment.  For
the title text consisting solely of one brace group, the leading optional
brace of the regex swallows the whole group: the source keeps the braces
in the title and leaves `notes` empty instead of extracting "note". -/
theorem c5_whole_brace_group_keeps_empty_notes :
    get_roster_name_field c5node = .ok ⟨"\x7bnote\x7d", "", false⟩ ∧
    ("" : String) ≠ "note" :=
  ⟨rfl, by decide⟩

/-- C5 (amended): for a title text of the shape `a{b}` whose leading
segment `a` is nonempty, brace-free and does not start with a dot (so the
text neither begins with a brace nor carries a suppression marker) and
whose annotation `b` contains no closing brace, the extraction yields
`title` equal to the trimmed leading segment, `notes` equal to the
trimmed annotation, and `isSuppressed = false`. -/
theorem c5_brace_suffix_becomes_notes (n tmp sp : Node) (a b : List Char)
    (hdiv : findIn nameDivFilter n = some tmp)
    (hsp : findIn anySpanFilter tmp = some sp)
    (htext : pyStrip sp.innerText = ⟨a ++ '{' :: (b ++ ['}'])⟩)
    (ha0 : a ≠ []) (haBrace : '{' ∉ a) (haDot : a.head? ≠ some '.')
    (hbC : '}' ∉ b) :
    get_roster_name_field n = .ok ⟨pyStrip ⟨a⟩, pyStrip ⟨b⟩, false⟩ := by
  have hne : pyStrip sp.innerText ≠ "" := by
    rw [htext]
    intro hEq
    have hdata : a ++ '{' :: (b ++ ['}']) = [] := congrArg String.data hEq
    simp at hdata
  have hAne : (⟨a⟩ : String) ≠ "" := by
    intro hEq
    exact ha0 (congrArg String.data hEq)
  unfold get_roster_name_field
  simp only [hdiv, hsp]
  rw [if_pos hne, htext]
  simp only [titleRegexGroups_split a b ha0 haBrace haDot hbC, ne_eq]
  rw [if_pos hAne]
  by_cases hb : b = []
  · subst hb
    simp
    rfl
  · have hBne : (⟨b⟩ : String) ≠ "" := fun hEq => hb (congrArg String.data hEq)
    simp [hBne]

/-- Witness for the amended C5 at the title text `Smith `, brace group
`acting`. -/
theorem c5_brace_suffix_becomes_notes_witness :
    pyStrip c5wSpan.innerText = ⟨"Smith ".data ++ '{' :: ("acting".data ++ ['}'])⟩ ∧
    get_roster_name_field c5wNode = .ok ⟨"Smith", "acting", false⟩ :=
  ⟨rfl, c5_brace_suffix_becomes_notes c5wNode c5wDiv c5wSpan "Smith ".data "acting".data
    rfl rfl rfl (by decide) (by decide) (by decide) (by decide)⟩

/-- C6 (confirmed): the roster sibling loop preserves source order inside
each group: concretely, siblings of types Shift, Shift, Unit produce the
mapping with the two Shift records in order and the single Unit record;
in general, for every run of the sibling loop the list stored under a key
is the incoming list extended by the records of that group type in
sibling order. -/
theorem c6_sibling_order_preserved :
    (parse_roster 1 c6tree =
      .ok [("Shift", [c6rec "A1", c6rec "A2"]), ("Unit", [c6rec "B1"])]) ∧
    (∀ (recurse : Node → Except PyError RDict) (lis : List Node) (d out : RDict)
        (recs : List (String × RVal)),
      parse_roster_items_with recurse lis d = .ok out →
      mapME (roster_item_with recurse) lis = .ok recs →
      ∀ k, dictLookup k out =
        dictLookup k d ++ (recs.filter (fun r => r.1 == k)).map (fun r => r.2)) :=
  ⟨rfl, items_order⟩

/-- Witness for C6 exercising the general order property on a singleton
sibling list. -/
theorem c6_sibling_order_preserved_witness :
    parse_roster_items_with c6recStub [rosterLeafLi "idShift" "A1"] [] =
      .ok [("Shift", [c6rec "A1"])] ∧
    mapME (roster_item_with c6recStub) [rosterLeafLi "idShift" "A1"] =
      .ok [("Shift", c6rec "A1")] ∧
    dictLookup "Shift" [("Shift", [c6rec "A1"])] =
      dictLookup "Shift" ([] : RDict) ++
        (([("Shift", c6rec "A1")].filter (fun r => r.1 == "Shift")).map (fun r => r.2)) :=
  ⟨rfl, rfl,
    c6_sibling_order_preserved.2 c6recStub [rosterLeafLi "idShift" "A1"] []
      [("Shift", [c6rec "A1"])] [("Shift", c6rec "A1")] rfl rfl "Shift"⟩

/-- C9 (confirmed): a calendar-day block whose date label does not parse
with the fixed format makes `parse_calendar` fail with an error rather
than skipping the day or substituting a default; and a parsing label is
normalized to YYYYMMDD, as the concrete document dated
Monday, January 01, 2024 shows. -/
theorem c9_calendar_date_strict_and_normalized :
    (∀ (doc day dd : Node),
      day ∈ findAllIn calendarDayFilter doc →
      findIn dateDivFilter day = some dd →
      strptimeADY (pyStrip dd.innerText) = none →
      ∃ e, parse_calendar doc = .error e) ∧
    parse_calendar c9goodDoc = .ok [⟨"20240101", []⟩] := by
  constructor
  · intro doc day dd hmem hdd hbad
    rcases hres : parse_calendar doc with e | ds
    · exact ⟨e, rfl⟩
    · exfalso
      unfold parse_calendar at hres
      obtain ⟨cd, hcd⟩ := mapME_ok_of_mem _ _ _ hres day hmem
      unfold parse_calendar_day at hcd
      simp only [hdd] at hcd
      rcases hev : mapME parse_event (findAllIn listItemFilter day) with e2 | evs
      · simp [hev] at hcd
      · simp [hev, hbad] at hcd
  · rfl

/-- Witness for C9 at a calendar-day block labelled with a slash date. -/
theorem c9_calendar_date_strict_witness :
    (c9badDay ∈ findAllIn calendarDayFilter c9badDoc) ∧
    findIn dateDivFilter c9badDay = some c9badDateDiv ∧
    strptimeADY (pyStrip c9badDateDiv.innerText) = none ∧
    (∃ e, parse_calendar c9badDoc = .error e) := by
  have hmem : c9badDay ∈ findAllIn calendarDayFilter c9badDoc := by
    have h : findAllIn calendarDayFilter c9badDoc = [c9badDay] := rfl
    rw [h]
    exact List.mem_singleton_self c9badDay
  exact ⟨hmem, rfl, rfl,
    c9_calendar_date_strict_and_normalized.1 c9badDoc c9badDay c9badDateDiv hmem rfl rfl⟩

end Festis
